import Mathlib

/-!
# Verification of the Queso Ventures audit generator (`src/audit.py`)

Shallow embedding of the logic of `audit.py`: the scoring helpers, URL
normalization, the three network collaborator wrappers (with the network
modelled as explicit oracle arguments), the validated-choice prompt loop,
and the data-collection pipeline `collect_data`.

Modelling conventions:
* Machine floats in the source only ever hold exact multiples of 1/2
  (the running website score) or exact integers, so `ℚ` models them
  faithfully; Python's `round` (round half to even) and `int` (truncation)
  are embedded explicitly.
* Python string methods (`strip`, `lower`, `startswith`, `replace`,
  `isdigit`) are embedded structurally over `List Char` (ASCII scope,
  which covers every string the program manipulates on these paths).
* Network calls, terminal input and the HTML parser library are oracles:
  explicit function/value arguments supplying their outcomes.
-/

namespace Audit

/-! ## Python primitive helpers -/

/-- `str.strip()`: drop leading and trailing whitespace. -/
def pyStrip (s : String) : String :=
  ⟨((s.data.dropWhile Char.isWhitespace).reverse.dropWhile
      Char.isWhitespace).reverse⟩

/-- `str.lower()` (ASCII scope). -/
def pyLower (s : String) : String :=
  ⟨s.data.map Char.toLower⟩

/-- `str.startswith(pre)`. -/
def pyStartsWith (s pre : String) : Bool :=
  pre.data.isPrefixOf s.data

/-- One pass of `str.replace(pat, rep)` (all non-overlapping occurrences,
left to right), with fuel for structural termination. -/
def replaceFuel (pat rep : List Char) : ℕ → List Char → List Char
  | 0, s => s
  | _, [] => []
  | fuel + 1, c :: rest =>
    if pat.isPrefixOf (c :: rest) ∧ pat ≠ [] then
      rep ++ replaceFuel pat rep fuel (rest.drop (pat.length - 1))
    else
      c :: replaceFuel pat rep fuel rest

/-- `str.replace(pat, rep)`. -/
def pyReplace (s pat rep : String) : String :=
  ⟨replaceFuel pat.data rep.data s.data.length s.data⟩

/-- Python's `round` on the values arising here (exact multiples of 1/2):
round to nearest, ties to even. -/
def pyRound (q : ℚ) : ℤ :=
  if q - ⌊q⌋ = 1 / 2 then (if 2 ∣ ⌊q⌋ then ⌊q⌋ else ⌊q⌋ + 1)
  else ⌊q + 1 / 2⌋

/-- Round half up (ties away from zero on the nonnegative values used
here): the common reading of "standard rounding". -/
def roundHalfUp (q : ℚ) : ℤ := ⌊q + 1 / 2⌋

/-- Python's `int()` applied to a nonnegative rational (truncation). -/
def pyTrunc (q : ℚ) : ℤ := ⌊q⌋

/-- `str.isdigit` (ASCII scope): nonempty and all characters digits. -/
def pyIsDigit (s : String) : Bool :=
  !s.data.isEmpty && s.data.all Char.isDigit

/-- `int()` on a string that passed `isdigit`. -/
def digitsToInt (s : String) : ℤ :=
  s.data.foldl (fun a c => a * 10 + ((c.toNat : ℤ) - 48)) 0

/-! ## Report banding: `score_color` / `score_label` -/

/-- The three report colors distinguished by `score_color` (`RED`,
`ORANGE`, `GREEN` in the source's brand palette). -/
inductive Color where
  | RED
  | ORANGE
  | GREEN
deriving DecidableEq, Repr

/-- `score_color(score, max_score=5)` from `audit.py`:
`pct = score / max_score`, `RED` below 0.4, `ORANGE` below 0.7,
else `GREEN`. -/
def score_color (score : ℤ) (max_score : ℤ := 5) : Color :=
  let pct : ℚ := (score : ℚ) / (max_score : ℚ)
  if pct < 2 / 5 then Color.RED
  else if pct < 7 / 10 then Color.ORANGE
  else Color.GREEN

/-- `score_label(score, max_score=5)` from `audit.py`. -/
def score_label (score : ℤ) (max_score : ℤ := 5) : String :=
  let pct : ℚ := (score : ℚ) / (max_score : ℚ)
  if pct < 2 / 5 then "Needs Work"
  else if pct < 7 / 10 then "Fair"
  else "Good"

/-! ## `pagespeed_to_score` -/

/-- `pagespeed_to_score(pct)` from `audit.py`: convert a 0-100 PageSpeed
percentage (or `None`) to a 1-5 score (or `None`). -/
def pagespeed_to_score (pct : Option ℤ) : Option ℤ :=
  match pct with
  | none => none
  | some p =>
    if p ≥ 90 then some 5
    else if p ≥ 70 then some 4
    else if p ≥ 50 then some 3
    else if p ≥ 30 then some 2
    else some 1

/-! ## `auto_website_score` -/

/-- The six boolean SEO signals computed by `check_website_seo_basics`
for a page whose HTML was actually retrieved. -/
structure SeoSignals where
  city_in_title : Bool
  city_in_h1 : Bool
  city_in_content : Bool
  service_mentioned : Bool
  is_mobile_ready : Bool
  has_phone : Bool
deriving DecidableEq, Repr

/-- `seo.get(key)` truthiness: an `Option SeoSignals` models the Python
dict, which is either empty (`{}`, every `get` returns falsy `None`) or
carries all six keys. -/
def seoGet (seo : Option SeoSignals) (f : SeoSignals → Bool) : Bool :=
  match seo with
  | none => false
  | some s => f s

/-- One `if not seo.get(k): score -= pen; issues.append(msg)` step of
`auto_website_score`. -/
def seoStep (acc : ℚ × List String) (signal : Bool) (pen : ℚ)
    (msg : String) : ℚ × List String :=
  if !signal then (acc.1 - pen, acc.2 ++ [msg]) else acc

/-- `auto_website_score(site_exists, seo)` from `audit.py`: derive a 1-5
website score and the list of auto-detected issues. -/
def auto_website_score (site_exists : Bool) (seo : Option SeoSignals) :
    ℤ × List String :=
  if !site_exists then (1, ["No website found"])
  else
    let acc : ℚ × List String := (5, [])
    let acc := seoStep acc (seoGet seo (·.city_in_title)) (1 / 2)
      "City not in page title"
    let acc := seoStep acc (seoGet seo (·.city_in_h1)) (1 / 2)
      "City not in main headline"
    let acc := seoStep acc (seoGet seo (·.city_in_content)) 1
      "City name not found in page content"
    let acc := seoStep acc (seoGet seo (·.service_mentioned)) 1
      "Service type not clearly mentioned on page"
    let acc := seoStep acc (seoGet seo (·.is_mobile_ready)) 1
      "No mobile viewport meta tag — may not be mobile friendly"
    let acc := seoStep acc (seoGet seo (·.has_phone)) (1 / 2)
      "No phone number detected on page"
    (max 1 (pyRound acc.1), acc.2)

/-- The claim-side penalty sum, written from the specification's words:
0.5 each for missing city-in-title, city-in-h1, phone; 1 each for missing
city-in-content, service-mention, mobile viewport. -/
def specPenalty (s : SeoSignals) : ℚ :=
  (if s.city_in_title then 0 else 1 / 2) +
  (if s.city_in_h1 then 0 else 1 / 2) +
  (if s.has_phone then 0 else 1 / 2) +
  (if s.city_in_content then 0 else 1) +
  (if s.service_mentioned then 0 else 1) +
  (if s.is_mobile_ready then 0 else 1)

/-- The claim-side website score, read literally from the claim's words
with "standard rounding" as round half up: 5 minus the penalties,
rounded, clamped to a minimum of 1. -/
def specWebsiteScoreHalfUp (s : SeoSignals) : ℤ :=
  max 1 (roundHalfUp (5 - specPenalty s))

/-- The claim-side website score with the rounding the code actually
performs (Python's round half to even). -/
def specWebsiteScorePyRound (s : SeoSignals) : ℤ :=
  max 1 (pyRound (5 - specPenalty s))

/-! ## `clean_url` and `check_website` -/

/-- The normalization `clean_url` performs on a nonempty URL string:
strip whitespace, prepend `https://` unless the string starts with
`http`. -/
def cleanStr (u : String) : String :=
  let t := pyStrip u
  if pyStartsWith t "http" then t else "https://" ++ t

/-- `clean_url(url)` from `audit.py` (`None`/empty falsy input gives
`None`). -/
def clean_url (url : Option String) : Option String :=
  match url with
  | none => none
  | some u => if u = "" then none else some (cleanStr u)

/-- Outcome of one `requests.get`: a response with a status code and
body text, a raised `SSLError`, or any other raised exception. -/
inductive HttpOutcome where
  | resp (status : ℕ) (text : String)
  | sslError
  | exc (msg : String)

/-- `check_website(url)` from `audit.py`, with the network as the oracle
`net`.  Returns `(site_exists, url_used, html_text)`. -/
def check_website (net : String → HttpOutcome) (url : Option String) :
    Bool × Option String × Option String :=
  match url with
  | none => (false, none, some "No website provided")
  | some u =>
    if u = "" ∨ pyLower u ∈ ["none", "n", ""] then
      (false, none, some "No website provided")
    else
      let clean := cleanStr u
      match net clean with
      | .resp st text =>
        if st < 400 then (true, some clean, some text)
        else (false, some clean, none)
      | .sslError =>
        let clean_http := pyReplace clean "https://" "http://"
        match net clean_http with
        | .resp _ text => (true, some clean_http, some text)
        | _ => (false, some clean, none)
      | .exc _ => (false, some clean, none)

/-! ## `get_pagespeed_score` -/

/-- Outcome of the PageSpeed API call: either some exception was raised
during the request or JSON decode, or a decoded body, read through
`data.get("lighthouseResult",{})...get("score")` (the normalized 0-1
performance score) and `data.get("error",{}).get("message")`. -/
inductive PSResponse where
  | raised (e : String)
  | json (score : Option ℚ) (errMsg : Option String)

/-- `get_pagespeed_score(url)` from `audit.py`, with the API call as the
oracle `resp`.  Returns `(percentage, error)`. -/
def get_pagespeed_score (resp : PSResponse) (url : Option String) :
    Option ℤ × Option String :=
  match url with
  | none => (none, some "No website")
  | some u =>
    if u = "" then (none, some "No website")
    else
      match resp with
      | .raised e => (none, some e)
      | .json (some sc) _ => (some (pyTrunc (sc * 100)), none)
      | .json none errMsg => (none, some (errMsg.getD "Unknown error"))

/-! ## `scrape_gbp_basics`

The GET of the composed search URL and BeautifulSoup's text rendering
(`soup.get_text(" ", strip=True)`) are the oracle; the regex searches on
`text[:3000]` are embedded as explicit leftmost-match scanners over
`List Char`.
-/

/-- A regex word character (`\w`, ASCII scope). -/
def isWordChar (c : Char) : Bool := c.isAlphanum || c == '_'

/-- `p` holds of the character at position `k` (false past the end). -/
def optTest (o : Option Char) (p : Char → Bool) : Bool :=
  match o with
  | none => false
  | some c => p c

/-- `p` holds of the character at position `k` when there is one
(true past the end, as for a `\b` at the string edge). -/
def optTestD (o : Option Char) (p : Char → Bool) : Bool :=
  match o with
  | none => true
  | some c => p c

/-- The literal `pat` occurs at position `k` of `t`, case-insensitively
(`re.IGNORECASE`, ASCII scope). -/
def ciAt (t : List Char) (k : ℕ) : List Char → Bool
  | [] => true
  | p :: ps =>
    optTest (t.get? k) (fun c => c.toLower == p.toLower) && ciAt t (k + 1) ps

/-- Length of the maximal digit run starting at position `j`. -/
def digitRunLen (t : List Char) (j : ℕ) : ℕ :=
  ((t.drop j).takeWhile Char.isDigit).length

/-- Length of the maximal whitespace run starting at position `j`
(`\s*` / `\s+` are greedy and their only viable backtrack here is the
full run, since every continuation starts with a non-space character). -/
def wsRunLen (t : List Char) (j : ℕ) : ℕ :=
  ((t.drop j).takeWhile Char.isWhitespace).length

/-- The pattern `\b([1-5]\.[0-9])\b` matches at position `i` of `t`:
a digit 1-5, a dot, a digit, with word boundaries on both sides (the
surrounded characters are word characters, so `\b` means "no word
character adjacent"). -/
def ratingMatchAt (t : List Char) (i : ℕ) : Bool :=
  optTest (t.get? i) (fun c => '1' ≤ c && c ≤ '5') &&
  (t.get? (i + 1) == some '.') &&
  optTest (t.get? (i + 2)) Char.isDigit &&
  (i == 0 || optTestD (t.get? (i - 1)) (fun c => !isWordChar c)) &&
  optTestD (t.get? (i + 3)) (fun c => !isWordChar c)

/-- `reviews?\b` matches at position `k` (case-insensitively): the
greedy optional `s` is taken when present; if the following character is
a word character the `s`-less alternative also fails its `\b`, so the
match requires a non-word character (or the end) after the last taken
letter. -/
def reviewTail (t : List Char) (k : ℕ) : Bool :=
  ciAt t k "review".data &&
  (match t.get? (k + 6) with
   | none => true
   | some c =>
     if c.toLower == 's' then optTestD (t.get? (k + 7)) (fun d => !isWordChar d)
     else !isWordChar c)

/-- The pattern `[\(\s](\d{1,5})\s*(?:Google\s+)?reviews?\b` matches at
position `i` of `t` (case-insensitively).  Backtracking resolves
deterministically: `\d{1,5}` can only succeed on a maximal digit run of
length 1-5 (a longer run leaves a digit where whitespace or a letter is
required, and every shorter split fails the same way); `\s*` and `\s+`
must take their full whitespace runs; and when `Google` + whitespace is
present the group-skipping alternative necessarily fails on the letter
`g`, so taking the group is the only candidate. -/
def reviewMatchAt (t : List Char) (i : ℕ) : Bool :=
  optTest (t.get? i) (fun c => c == '(' || c.isWhitespace) &&
  (let d := digitRunLen t (i + 1)
   (decide (1 ≤ d) && decide (d ≤ 5)) &&
   (let k := i + 1 + d + wsRunLen t (i + 1 + d)
    if ciAt t k "google".data && decide (1 ≤ wsRunLen t (k + 6)) then
      reviewTail t (k + 6 + wsRunLen t (k + 6))
    else reviewTail t k))

/-- The alternation `\b(open|closed|hours|AM|PM)\b` (case-insensitive)
matches at position `i` of `t`. -/
def hoursMatchAt (t : List Char) (i : ℕ) : Bool :=
  ["open".data, "closed".data, "hours".data, "am".data, "pm".data].any
    fun w =>
      ciAt t i w &&
      (i == 0 || optTestD (t.get? (i - 1)) (fun c => !isWordChar c)) &&
      optTestD (t.get? (i + w.length)) (fun c => !isWordChar c)

/-- `re.search`'s scan: the smallest position at or after `i` (within
`fuel` steps) where `p` holds. -/
def scanFrom (p : ℕ → Bool) : ℕ → ℕ → Option ℕ
  | 0, _ => none
  | fuel + 1, i => if p i then some i else scanFrom p fuel (i + 1)

/-- Leftmost position of `t` satisfying `p`. -/
def searchIdx (p : ℕ → Bool) (t : List Char) : Option ℕ :=
  scanFrom p t.length 0

/-- `re.search(r'\b([1-5]\.[0-9])\b', text)`: group 1 of the leftmost
match (the whole three-character pattern). -/
def ratingSearch (t : List Char) : Option String :=
  (searchIdx (ratingMatchAt t) t).map fun i => ⟨(t.drop i).take 3⟩

/-- `re.search(r'[\(\s](\d{1,5})\s*(?:Google\s+)?reviews?\b', text, re.I)`:
group 1 of the leftmost match (the digit run after the opening
delimiter). -/
def reviewSearch (t : List Char) : Option String :=
  (searchIdx (reviewMatchAt t) t).map fun i =>
    ⟨(t.drop (i + 1)).takeWhile Char.isDigit⟩

/-- Outcome of fetching and rendering the Google search result page:
either some exception was raised, or the rendered text
`soup.get_text(" ", strip=True)`. -/
inductive GbpFetch where
  | raised (e : String)
  | page (renderedText : String)

/-- The dict returned by `scrape_gbp_basics`. -/
structure GbpInfo where
  rating : String
  review_count : String
  has_hours : Bool
deriving DecidableEq, Repr

/-- `scrape_gbp_basics(business_name, city)` from `audit.py`, with the
fetch-and-render as the oracle: extract the first rating-shaped and
review-count-shaped substrings of `text[:3000]`, defaulting to `"?"`,
and the presence of an hours-like word; any exception yields the
all-unknown dict. -/
def scrape_gbp_basics (fetch : GbpFetch) : GbpInfo :=
  match fetch with
  | .raised _ => ⟨"?", "?", false⟩
  | .page text =>
    let t := text.data.take 3000
    { rating := (ratingSearch t).getD "?"
      review_count := (reviewSearch t).getD "?"
      has_hours := (searchIdx (hoursMatchAt t) t).isSome }

/-! ## The `prompt` validation loop (options mode) -/

/-- The `while True` loop of `prompt(label, options)` from `audit.py`:
read a line, strip it, parse it with `int()` (modelled by the
parameter `parse`, returning `none` where `int()` would raise
`ValueError`), return the value when it lies in `1..len(options)`,
otherwise print "Invalid" and loop.  An exhausted input list models a
session in which the loop never returns. -/
def promptChoice (parse : String → Option ℤ) (nopts : ℕ) :
    List String → Option ℤ
  | [] => none
  | line :: rest =>
    match parse (pyStrip line) with
    | some v =>
      if 1 ≤ v ∧ v ≤ (nopts : ℤ) then some v else promptChoice parse nopts rest
    | none => promptChoice parse nopts rest

/-! ## `collect_data` -/

/-- `prompt(label, default=d)` in free-text mode: the stripped input
line, or the default when blank. -/
def promptTextD (raw dflt : String) : String :=
  if pyStrip raw = "" then dflt else pyStrip raw

/-- `prompt(label)` in free-text mode with no default: `None` when the
stripped line is empty. -/
def promptTextOpt (raw : String) : Option String :=
  if pyStrip raw = "" then none else some (pyStrip raw)

/-- `f"Mobile PageSpeed score is {pct}/100 — very slow, hurts rankings"`. -/
def msgVerySlow (pct : ℤ) : String :=
  "Mobile PageSpeed score is " ++ toString pct ++
    "/100 — very slow, hurts rankings"

/-- `f"Mobile PageSpeed score is {pct}/100 — needs improvement"`. -/
def msgNeedsImprovement (pct : ℤ) : String :=
  "Mobile PageSpeed score is " ++ toString pct ++ "/100 — needs improvement"

/-- The auto-findings appended from the fetched PageSpeed percentage
(`collect_data`, step 3): below 50 the "very slow" finding, otherwise
below 70 the "needs improvement" finding, otherwise nothing. -/
def speedFindings (pct : Option ℤ) : List String :=
  match pct with
  | none => []
  | some p =>
    if p < 50 then [msgVerySlow p]
    else if p < 70 then [msgNeedsImprovement p]
    else []

/-- One interactive session's inputs and collaborator outcomes: the raw
terminal lines, the network oracles, and the values returned by the
validated 1-5 `prompt` menus (`promptChoice`). -/
structure Env where
  business_name_line : String
  business_type_line : String
  business_city_line : String
  website_line : String
  net : String → HttpOutcome
  manual_confirm_line : String
  psResponse : PSResponse
  seoParse : String → SeoSignals
  gbpFetch : GbpFetch
  rating_line : String
  count_line : String
  comp_name_line : String
  comp_reviews_line : String
  comp_rating_line : String
  comp_has_site_line : String
  website_override_line : String
  speed_override_line : String
  website_choice : ℤ
  speed_choice : ℤ
  gbp_choice : ℤ
  visibility_choice : ℤ
  geo_choice : ℤ
  manual_findings : List String
  rec_lines : List String
  auditor_line : String
  audit_date : String

/-- `website_input` after the prompt (default `""`). -/
def websiteInput (env : Env) : String := promptTextD env.website_line ""

/-- `bool(website_input and website_input.lower() not in ("none","n",""))`. -/
def hasWebsiteInput (env : Env) : Bool :=
  !(websiteInput env = "") &&
    !(decide (pyLower (websiteInput env) ∈ ["none", "n", ""]))

/-- `data["website_url"]`: the input when considered a website, else the
literal string `"None"`. -/
def websiteUrl (env : Env) : String :=
  if hasWebsiteInput env then websiteInput env else "None"

/-- Step 1 of `collect_data`: `check_website` plus the manual-confirm
fallback, yielding the final `(site_exists, site_url, html)`. -/
def siteResolution (env : Env) : Bool × Option String × Option String :=
  let r := check_website env.net
    (if hasWebsiteInput env then some (websiteUrl env) else none)
  if hasWebsiteInput env && !r.1 then
    (if pyLower (promptTextD env.manual_confirm_line "n") = "y" then
      (true, clean_url (some (websiteUrl env)), none)
    else r)
  else r

/-- Step 2 of `collect_data`: the SEO dict, `{}` unless a nonempty HTML
body was retrieved (the parse of an actual body is the `seoParse`
oracle, wrapping BeautifulSoup). -/
def seoOf (env : Env) : Option SeoSignals :=
  match (siteResolution env).2.2 with
  | none => none
  | some h => if h = "" then none else some (env.seoParse h)

/-- Step 3 of `collect_data`: the fetched PageSpeed percentage
(`(None, "No website")` without a reachable site). -/
def pagespeedPct (env : Env) : Option ℤ :=
  if (siteResolution env).1 then
    (get_pagespeed_score env.psResponse (siteResolution env).2.1).1
  else none

/-- The `auto_findings` list accumulated by `collect_data`: the website
issues followed by the PageSpeed finding. -/
def autoFindings (env : Env) : List String :=
  (auto_website_score (siteResolution env).1 (seoOf env)).2 ++
    speedFindings (pagespeedPct env)

/-- `data["website_score"]` selection: auto score (overridable by a
digit string) when truthy and the site exists, `1` without a site, else
the manual 1-5 menu. -/
def websiteScoreField (autoScore : ℤ) (site_exists : Bool) (ov : String)
    (choice : ℤ) : ℤ :=
  if !(autoScore = 0) && site_exists then
    (if pyIsDigit ov then digitsToInt ov else autoScore)
  else if !site_exists then 1
  else choice

/-- `data["speed_score"]` selection: truthy auto score (overridable by a
digit string), `1` without a site, else the manual 1-5 menu. -/
def speedScoreField (autoScore : Option ℤ) (site_exists : Bool)
    (ov : String) (choice : ℤ) : ℤ :=
  if (match autoScore with | some s => !(s = 0) | none => false) then
    (if pyIsDigit ov then digitsToInt ov else autoScore.getD 0)
  else if !site_exists then 1
  else choice

/-- The scraped GBP dict for this session. -/
def gbpData (env : Env) : GbpInfo := scrape_gbp_basics env.gbpFetch

/-- `data["review_rating"]`: manual entry when either scraped field is
unknown. -/
def reviewRatingField (env : Env) : String :=
  if (gbpData env).rating = "?" ∨ (gbpData env).review_count = "?" then
    promptTextD env.rating_line "none"
  else (gbpData env).rating

/-- `data["review_count"]`: manual entry when either scraped field is
unknown. -/
def reviewCountField (env : Env) : String :=
  if (gbpData env).rating = "?" ∨ (gbpData env).review_count = "?" then
    promptTextD env.count_line "0"
  else (gbpData env).review_count

/-- The session record accumulated by `collect_data`. -/
structure AuditData where
  business_name : Option String
  business_type : Option String
  business_city : Option String
  has_website : Bool
  website_url : String
  review_rating : String
  review_count : String
  comp_name : String
  comp_reviews : String
  comp_rating : String
  comp_has_site : Bool
  website_score : ℤ
  speed_score : ℤ
  gbp_score : ℤ
  visibility_score : ℤ
  geo_score : ℤ
  findings : List String
  recommendations : List String
  auditor_name : String
  audit_date : String

/-- `collect_data()` from `audit.py` as a function of one session's
inputs and collaborator outcomes.  The manual findings loop is modelled
by the list of lines it accumulates; the three recommendation prompts
keep the nonempty stripped entries in order. -/
def collect_data (env : Env) : AuditData :=
  { business_name := promptTextOpt env.business_name_line
    business_type := promptTextOpt env.business_type_line
    business_city := promptTextOpt env.business_city_line
    has_website := (siteResolution env).1
    website_url := websiteUrl env
    review_rating := reviewRatingField env
    review_count := reviewCountField env
    comp_name := promptTextD env.comp_name_line "N/A"
    comp_reviews := promptTextD env.comp_reviews_line "N/A"
    comp_rating := promptTextD env.comp_rating_line "N/A"
    comp_has_site := pyLower (promptTextD env.comp_has_site_line "y") = "y"
    website_score := websiteScoreField
      (auto_website_score (siteResolution env).1 (seoOf env)).1
      (siteResolution env).1
      (promptTextD env.website_override_line "") env.website_choice
    speed_score := speedScoreField
      (pagespeed_to_score (pagespeedPct env))
      (siteResolution env).1
      (promptTextD env.speed_override_line "") env.speed_choice
    gbp_score := env.gbp_choice
    visibility_score := env.visibility_choice
    geo_score := env.geo_choice
    findings := autoFindings env ++ env.manual_findings
    recommendations := env.rec_lines.foldl
      (fun acc raw => if pyStrip raw = "" then acc else acc ++ [pyStrip raw]) []
    auditor_name := promptTextD env.auditor_line "Queso Ventures"
    audit_date := env.audit_date }

/-! ## Concrete test sessions -/

/-- The six issue strings produced when every SEO signal is missing. -/
def allIssues : List String :=
  ["City not in page title", "City not in main headline",
   "City name not found in page content",
   "Service type not clearly mentioned on page",
   "No mobile viewport meta tag — may not be mobile friendly",
   "No phone number detected on page"]

/-- A session with no website entered: the operator leaves the URL
prompt blank, and no auto data is reachable. -/
def envNoSite : Env :=
  { business_name_line := "Joes Garage"
    business_type_line := "Auto Repair"
    business_city_line := "Humble, TX"
    website_line := ""
    net := fun _ => HttpOutcome.exc "unreachable"
    manual_confirm_line := ""
    psResponse := PSResponse.raised "no call"
    seoParse := fun _ => ⟨false, false, false, false, false, false⟩
    gbpFetch := GbpFetch.raised "blocked"
    rating_line := "none"
    count_line := "0"
    comp_name_line := ""
    comp_reviews_line := ""
    comp_rating_line := ""
    comp_has_site_line := ""
    website_override_line := ""
    speed_override_line := ""
    website_choice := 3
    speed_choice := 3
    gbp_choice := 2
    visibility_choice := 2
    geo_choice := 1
    manual_findings := []
    rec_lines := ["Build a website"]
    auditor_line := ""
    audit_date := "January 01, 2026" }

/-- A session whose site is reachable and whose PageSpeed percentage
comes back as 0.55, i.e. 55/100, with every SEO signal present and no
operator override. -/
def env55 : Env :=
  { envNoSite with
    website_line := "example.com"
    net := fun _ => HttpOutcome.resp 200 "<html><body>hi</body></html>"
    psResponse := PSResponse.json (some (11 / 20)) none
    seoParse := fun _ => ⟨true, true, true, true, true, true⟩ }

/-- A session whose site cannot be reached automatically but is
confirmed manually by the operator ("y"): the site counts as existing
while no HTML was retrieved, so the SEO dict stays empty. -/
def envManualConfirm : Env :=
  { envNoSite with
    website_line := "brokensite.com"
    net := fun _ => HttpOutcome.exc "connection refused"
    manual_confirm_line := "y"
    psResponse := PSResponse.raised "timeout" }

/-- A network on which the HTTPS variant fails the TLS handshake and
the plaintext variant answers with HTTP 500. -/
def netSslThenErr : String → HttpOutcome := fun u =>
  if u = "http://x.com" then HttpOutcome.resp 500 "Server Error"
  else HttpOutcome.sslError

/-! ## Claims -/

/-- C2: for every percentage, `pagespeed_to_score` is monotone
non-decreasing, hits the fixed thresholds exactly at the boundaries
(90→5, 89→4, 70→4, 69→3, 50→3, 49→2, 30→2, 29→1), and maps every
percentage in 0-100 to a score in 1-5. -/
theorem pagespeed_to_score_monotone_thresholds :
    (∀ p q a b : ℤ, p ≤ q → pagespeed_to_score (some p) = some a →
      pagespeed_to_score (some q) = some b → a ≤ b) ∧
    pagespeed_to_score (some 90) = some 5 ∧
    pagespeed_to_score (some 89) = some 4 ∧
    pagespeed_to_score (some 70) = some 4 ∧
    pagespeed_to_score (some 69) = some 3 ∧
    pagespeed_to_score (some 50) = some 3 ∧
    pagespeed_to_score (some 49) = some 2 ∧
    pagespeed_to_score (some 30) = some 2 ∧
    pagespeed_to_score (some 29) = some 1 ∧
    (∀ p : ℤ, 0 ≤ p → p ≤ 100 →
      ∃ s, pagespeed_to_score (some p) = some s ∧ 1 ≤ s ∧ s ≤ 5) := by
  refine ⟨?_, by decide, by decide, by decide, by decide, by decide,
    by decide, by decide, by decide, ?_⟩
  · intro p q a b hpq ha hb
    simp only [pagespeed_to_score] at ha hb
    split_ifs at ha hb <;> simp_all <;> omega
  · intro p _ _
    simp only [pagespeed_to_score]
    split_ifs <;> exact ⟨_, rfl, by omega, by omega⟩

/-- Witness for C2 at concrete inputs. -/
theorem pagespeed_to_score_monotone_thresholds_witness :
    (3 : ℤ) ≤ 5 ∧
    (∃ s, pagespeed_to_score (some 55) = some s ∧ 1 ≤ s ∧ s ≤ 5) :=
  ⟨pagespeed_to_score_monotone_thresholds.1 55 95 3 5 (by decide)
      (by decide) (by decide),
    pagespeed_to_score_monotone_thresholds.2.2.2.2.2.2.2.2.2 55
      (by decide) (by decide)⟩

/-- C4: for every score `s` out of a positive maximum `m`, the color and
label banding agree on a single three-tier split: below 40% gives
RED/"Needs Work", from 40% up to (excluding) 70% gives ORANGE/"Fair",
and 70% or above gives GREEN/"Good"; at exactly 40% (2 of 5, 10 of 25)
the middle tier applies. -/
theorem score_band_three_tiers (s m : ℤ) (hm : 0 < m) :
    (((s : ℚ) / (m : ℚ) < 2 / 5 →
        score_color s m = Color.RED ∧ score_label s m = "Needs Work") ∧
      (2 / 5 ≤ (s : ℚ) / (m : ℚ) → (s : ℚ) / (m : ℚ) < 7 / 10 →
        score_color s m = Color.ORANGE ∧ score_label s m = "Fair") ∧
      (7 / 10 ≤ (s : ℚ) / (m : ℚ) →
        score_color s m = Color.GREEN ∧ score_label s m = "Good")) ∧
    score_color 2 5 = Color.ORANGE ∧ score_label 2 5 = "Fair" ∧
    score_color 10 25 = Color.ORANGE ∧ score_label 10 25 = "Fair" := by
  refine ⟨⟨?_, ?_, ?_⟩, ?_, ?_, ?_, ?_⟩
  · intro h
    constructor <;> simp [score_color, score_label, h]
  · intro h1 h2
    constructor <;> simp [score_color, score_label, not_lt.mpr h1, h2]
  · intro h
    have h2 : (2 : ℚ) / 5 ≤ (s : ℚ) / (m : ℚ) := le_trans (by norm_num) h
    constructor <;>
      simp [score_color, score_label, not_lt.mpr h, not_lt.mpr h2]
  · norm_num [score_color]
  · norm_num [score_label]
  · norm_num [score_color]
  · norm_num [score_label]

/-- Witness for C4 at `s = 1`, `m = 5` (20%: lowest tier). -/
theorem score_band_three_tiers_witness :
    score_color 1 5 = Color.RED ∧ score_label 1 5 = "Needs Work" :=
  (score_band_three_tiers 1 5 (by decide)).1.1 (by norm_num)

/-- C7: `get_pagespeed_score` never fails: a raised exception gives
`(None, message)`, a response without the normalized score field gives
`(None, error-or-default)`, so whenever the score field is absent the
percentage is `None` and an error description is present; a present
score yields its truncated percentage. -/
theorem get_pagespeed_score_degrades (u : String) (resp : PSResponse)
    (hu : u ≠ "") :
    (∀ e, resp = PSResponse.raised e →
      get_pagespeed_score resp (some u) = (none, some e)) ∧
    (∀ m, resp = PSResponse.json none m →
      get_pagespeed_score resp (some u) =
        (none, some (m.getD "Unknown error"))) ∧
    ((match resp with
      | PSResponse.raised _ => (none : Option ℚ)
      | PSResponse.json sc _ => sc) = none →
      (get_pagespeed_score resp (some u)).1 = none ∧
        (get_pagespeed_score resp (some u)).2 ≠ none) ∧
    (∀ sc m, resp = PSResponse.json (some sc) m →
      get_pagespeed_score resp (some u) =
        (some (pyTrunc (sc * 100)), none)) := by
  refine ⟨?_, ?_, ?_, ?_⟩
  · rintro e rfl
    simp [get_pagespeed_score, hu]
  · rintro m rfl
    simp [get_pagespeed_score, hu]
  · intro hsc
    cases resp with
    | raised e => simp [get_pagespeed_score, hu]
    | json sc m =>
      cases sc with
      | none => simp [get_pagespeed_score, hu]
      | some q => simp at hsc
  · rintro sc m rfl
    simp [get_pagespeed_score, hu]

/-- Witness for C7: a raised timeout degrades to `(None, message)`. -/
theorem get_pagespeed_score_degrades_witness :
    get_pagespeed_score (PSResponse.raised "timeout")
      (some "https://example.com") = (none, some "timeout") :=
  (get_pagespeed_score_degrades "https://example.com"
    (PSResponse.raised "timeout") (by decide)).1 "timeout" rfl

/-- C10: whenever the options-mode prompt loop returns on a non-empty
options list, the returned value lies in `1..len(options)`, for every
behavior of `int()` and every input stream. -/
theorem promptChoice_in_range (parse : String → Option ℤ)
    (options : List String) (inputs : List String) (n : ℤ)
    (hne : options ≠ [])
    (h : promptChoice parse options.length inputs = some n) :
    1 ≤ n ∧ n ≤ (options.length : ℤ) := by
  clear hne
  induction inputs with
  | nil => simp [promptChoice] at h
  | cons line rest ih =>
    simp only [promptChoice] at h
    cases hp : parse (pyStrip line) with
    | none => simp only [hp] at h; exact ih h
    | some v =>
      simp only [hp] at h
      split_ifs at h with hv
      · obtain rfl : v = n := by simpa using h
        exact hv
      · exact ih h

/-- Witness for C10: a session typing "abc" then "7" then "3" on a
three-option menu returns 3, which is in range. -/
theorem promptChoice_in_range_witness :
    (1 : ℤ) ≤ 3 ∧ (3 : ℤ) ≤ ((["a", "b", "c"] : List String).length : ℤ) :=
  promptChoice_in_range
    (fun s => if s = "3" then some 3 else if s = "7" then some 7 else none)
    ["a", "b", "c"] ["abc", "7", "3"] 3 (by decide) (by decide)

/-- C1 counterexample: with only the phone signal missing (penalty 0.5,
raw score 4.5) the code returns 4 (Python's round half to even), while
"5 minus the penalties, rounded with standard rounding (half up)" gives
5. -/
theorem auto_website_score_half_up_counterexample :
    (auto_website_score true
        (some ⟨true, true, true, true, true, false⟩)).1 = 4 ∧
    specWebsiteScoreHalfUp ⟨true, true, true, true, true, false⟩ = 5 := by
  constructor <;>
    norm_num [auto_website_score, seoStep, seoGet, specWebsiteScoreHalfUp,
      specPenalty, roundHalfUp, pyRound]

/-- C1 as amended: for every subset of the six SEO signals being false
(website reachable), `auto_website_score` returns 5 minus the sum of the
fixed penalties (0.5 each for city-in-title, city-in-h1, phone; 1 each
for city-in-content, service-mention, mobile viewport), rounded to the
nearest integer with ties to even (Python's `round`), clamped to a
minimum of 1. -/
theorem auto_website_score_matches_spec_half_even (s : SeoSignals) :
    (auto_website_score true (some s)).1 = specWebsiteScorePyRound s := by
  obtain ⟨a, b, c, d, e, f⟩ := s
  cases a <;> cases b <;> cases c <;> cases d <;> cases e <;> cases f <;>
    norm_num [auto_website_score, seoStep, seoGet, specWebsiteScorePyRound,
      specPenalty, pyRound]

/-- C9: with a site considered existing, `auto_website_score` always
returns a score in 1-5; on the empty SEO dict (manual-confirm path, no
HTML retrieved) all six penalties apply, the score is 1 and all six
issue strings are produced; and in the manual-confirm session those six
issues are exactly the record's findings even though the SEO checks were
announced as skipped. -/
theorem auto_website_score_range_and_manual_confirm :
    (∀ seo : Option SeoSignals,
      1 ≤ (auto_website_score true seo).1 ∧
        (auto_website_score true seo).1 ≤ 5) ∧
    auto_website_score true none = (1, allIssues) ∧
    (collect_data envManualConfirm).has_website = true ∧
    (collect_data envManualConfirm).website_score = 1 ∧
    (collect_data envManualConfirm).findings = allIssues := by
  have hsr : siteResolution envManualConfirm =
      (true, some "https://brokensite.com", none) := rfl
  have haws : auto_website_score true none = (1, allIssues) := by
    norm_num [auto_website_score, seoStep, seoGet, pyRound, allIssues]
  have hseo : seoOf envManualConfirm = none := by
    simp [seoOf, hsr]
  have hps : envManualConfirm.psResponse = PSResponse.raised "timeout" := rfl
  have hpct : pagespeedPct envManualConfirm = none := by
    simp [pagespeedPct, hsr, hps, get_pagespeed_score]
  have hov : promptTextD envManualConfirm.website_override_line "" = "" := rfl
  have hdg : pyIsDigit "" = false := rfl
  refine ⟨?_, haws, by simp [collect_data, hsr], ?_, ?_⟩
  · rintro (_ | ⟨a, b, c, d, e, f⟩)
    · norm_num [auto_website_score, seoStep, seoGet, pyRound]
    · cases a <;> cases b <;> cases c <;> cases d <;> cases e <;> cases f <;>
        norm_num [auto_website_score, seoStep, seoGet, pyRound]
  · simp [collect_data, hsr, hseo, haws, websiteScoreField, hov, hdg]
  · have hmf : envManualConfirm.manual_findings = [] := rfl
    simp [collect_data, autoFindings, hsr, hseo, haws, hpct, speedFindings,
      hmf]

/-- C3: whenever the session ends with no reachable website, the
record's website and speed scores are both forced to 1 and the findings
contain the "No website found" entry. -/
theorem collect_data_no_website_forces_ones (env : Env)
    (h : (collect_data env).has_website = false) :
    (collect_data env).website_score = 1 ∧
    (collect_data env).speed_score = 1 ∧
    "No website found" ∈ (collect_data env).findings := by
  have hsr : (siteResolution env).1 = false := h
  refine ⟨?_, ?_, ?_⟩
  · simp [collect_data, hsr, websiteScoreField]
  · simp [collect_data, hsr, speedScoreField, pagespeedPct,
      pagespeed_to_score]
  · simp [collect_data, autoFindings, hsr, auto_website_score,
      pagespeedPct, speedFindings]

/-- Witness for C3: the blank-URL session has no website, and the
theorem forces its scores to 1 with the "No website found" finding. -/
theorem collect_data_no_website_forces_ones_witness :
    (collect_data envNoSite).website_score = 1 ∧
    (collect_data envNoSite).speed_score = 1 ∧
    "No website found" ∈ (collect_data envNoSite).findings :=
  collect_data_no_website_forces_ones envNoSite (by decide)

/-- C6: a fetched percentage of 55 derives speed score 3 and appends the
"needs improvement" auto-finding; at or above 70 nothing is appended
(so a "needs improvement" finding only arises below 70); in the
concrete 55-session the record's speed score is 3 and the finding is in
its findings list. -/
theorem pagespeed_55_needs_improvement :
    pagespeed_to_score (some 55) = some 3 ∧
    speedFindings (some 55) = [msgNeedsImprovement 55] ∧
    (∀ p : ℤ, 70 ≤ p → speedFindings (some p) = []) ∧
    (collect_data env55).speed_score = 3 ∧
    msgNeedsImprovement 55 ∈ (collect_data env55).findings := by
  have hsr : siteResolution env55 =
      (true, some "https://example.com",
        some "<html><body>hi</body></html>") := rfl
  have hps : env55.psResponse = PSResponse.json (some (11 / 20)) none := rfl
  have htr : pyTrunc ((11 : ℚ) / 20 * 100) = 55 := by norm_num [pyTrunc]
  have hpct : pagespeedPct env55 = some 55 := by
    simp [pagespeedPct, hsr, hps, get_pagespeed_score, htr]
  have hseo : seoOf env55 = some ⟨true, true, true, true, true, true⟩ := rfl
  have haws : auto_website_score true
      (some ⟨true, true, true, true, true, true⟩) = (5, []) := by
    norm_num [auto_website_score, seoStep, seoGet, pyRound]
  have hp3 : pagespeed_to_score (some 55) = some 3 := by decide
  have hov : promptTextD env55.speed_override_line "" = "" := rfl
  have hdg : pyIsDigit "" = false := rfl
  have hmf : env55.manual_findings = [] := rfl
  have h55 : speedFindings (some 55) = [msgNeedsImprovement 55] := by
    simp [speedFindings]
  refine ⟨hp3, h55, ?_, ?_, ?_⟩
  · intro p hp
    simp only [speedFindings]
    split_ifs with h1 h2
    · omega
    · omega
    · rfl
  · simp [collect_data, speedScoreField, hsr, hpct, hp3, hov, hdg]
  · simp [collect_data, autoFindings, hsr, hseo, haws, hpct, h55, hmf]

/-- Witness for C6: at percentage 80 no speed finding is appended. -/
theorem pagespeed_55_needs_improvement_witness :
    speedFindings (some 80) = [] :=
  pagespeed_55_needs_improvement.2.2.1 80 (by decide)

/-- C5 counterexample: on a URL whose HTTPS fetch fails the TLS
handshake and whose plaintext fallback answers HTTP 500, `check_website`
reports success although the obtained response's status is not below
400. -/
theorem check_website_status_counterexample :
    netSslThenErr "https://x.com" = HttpOutcome.sslError ∧
    netSslThenErr "http://x.com" = HttpOutcome.resp 500 "Server Error" ∧
    ¬(500 < 400) ∧
    check_website netSslThenErr (some "x.com") =
      (true, some "http://x.com", some "Server Error") :=
  ⟨rfl, rfl, by omega, rfl⟩

/-- C5 as amended: `check_website` normalizes the URL (prepending
`https://` when the stripped input has no `http` prefix) and GETs it;
on a TLS failure it retries the plaintext `http://` variant.  On the
primary path it succeeds exactly when the status is below 400, but on
the TLS-fallback path it succeeds whenever the plaintext GET returns
any response, regardless of its status. -/
theorem check_website_success_characterization
    (net : String → HttpOutcome) (u : String)
    (hu : ¬(u = "" ∨ pyLower u ∈ ["none", "n", ""])) :
    ((check_website net (some u)).1 = true ↔
      (∃ st text, net (cleanStr u) = HttpOutcome.resp st text ∧ st < 400) ∨
      (net (cleanStr u) = HttpOutcome.sslError ∧
        ∃ st text,
          net (pyReplace (cleanStr u) "https://" "http://") =
            HttpOutcome.resp st text)) ∧
    (pyStartsWith (pyStrip u) "http" = false →
      cleanStr u = "https://" ++ pyStrip u) := by
  constructor
  · simp only [check_website]
    rw [if_neg hu]
    cases hnet : net (cleanStr u) with
    | resp st text =>
      by_cases hst : st < 400
      · simp [hst]
      · simp only [if_neg hst]
        simp [HttpOutcome.resp.injEq]
        omega
    | sslError =>
      cases hfb : net (pyReplace (cleanStr u) "https://" "http://") with
      | resp st text => simp
      | sslError => simp
      | exc e => simp
    | exc e => simp
  · intro h
    simp [cleanStr, h]

/-- Witness for C5's amended theorem: on the concrete TLS-then-500
network, the reachability report is successful because the fallback
returned a response. -/
theorem check_website_success_characterization_witness :
    (check_website netSslThenErr (some "x.com")).1 = true :=
  ((check_website_success_characterization netSslThenErr "x.com"
      (by decide)).1).mpr
    (Or.inr ⟨rfl, 500, "Server Error", rfl⟩)

/-- Helper: a successful scan returns a position satisfying `p` with no
earlier satisfying position at or after the start. -/
theorem scanFrom_eq_some {p : ℕ → Bool} :
    ∀ {fuel i j : ℕ}, scanFrom p fuel i = some j →
      p j = true ∧ i ≤ j ∧ ∀ k, i ≤ k → k < j → p k = false := by
  intro fuel
  induction fuel with
  | zero => intro i j h; simp [scanFrom] at h
  | succ n ih =>
    intro i j h
    simp only [scanFrom] at h
    by_cases hp : p i = true
    · rw [if_pos hp] at h
      obtain rfl : i = j := by simpa using h
      exact ⟨hp, le_refl i, fun k hk1 hk2 => absurd hk1 (by omega)⟩
    · rw [if_neg hp] at h
      obtain ⟨h1, h2, h3⟩ := ih h
      refine ⟨h1, by omega, fun k hk1 hk2 => ?_⟩
      rcases eq_or_lt_of_le hk1 with rfl | hlt
      · simpa using hp
      · exact h3 k (by omega) hk2

/-- Helper: a failed scan means no position in the scanned window
satisfies `p`. -/
theorem scanFrom_eq_none {p : ℕ → Bool} :
    ∀ {fuel i : ℕ}, scanFrom p fuel i = none →
      ∀ k, i ≤ k → k < i + fuel → p k = false := by
  intro fuel
  induction fuel with
  | zero => intro i _ k hk1 hk2; omega
  | succ n ih =>
    intro i h k hk1 hk2
    simp only [scanFrom] at h
    by_cases hp : p i = true
    · rw [if_pos hp] at h; cases h
    · rw [if_neg hp] at h
      rcases eq_or_lt_of_le hk1 with rfl | hlt
      · simpa using hp
      · exact ih h k (by omega) (by omega)

/-- Helper: the rating pattern cannot match past the end of the text. -/
theorem ratingMatchAt_of_le_length {t : List Char} {i : ℕ}
    (h : t.length ≤ i) : ratingMatchAt t i = false := by
  have hnone : t.get? i = none := List.get?_eq_none.mpr h
  simp only [ratingMatchAt, hnone, optTest, Bool.false_and]

/-- Helper: the review pattern cannot match past the end of the text. -/
theorem reviewMatchAt_of_le_length {t : List Char} {i : ℕ}
    (h : t.length ≤ i) : reviewMatchAt t i = false := by
  have hnone : t.get? i = none := List.get?_eq_none.mpr h
  simp only [reviewMatchAt, hnone, optTest, Bool.false_and]

/-- C8: `scrape_gbp_basics` returns the all-unknown dict on any raised
exception; otherwise, over the first 3000 characters of the rendered
text, its rating is the leftmost match of the 1-5 decimal pattern (and
`"?"` exactly when no position matches), and its review count is the
digit group of the leftmost match of the integer-followed-by-"reviews"
pattern (and `"?"` exactly when no position matches). -/
theorem scrape_gbp_first_match :
    (∀ e, scrape_gbp_basics (GbpFetch.raised e) = ⟨"?", "?", false⟩) ∧
    (∀ text,
      ((scrape_gbp_basics (GbpFetch.page text)).rating = "?" ∧
        ∀ i, ratingMatchAt (text.data.take 3000) i = false) ∨
      (∃ i, ratingMatchAt (text.data.take 3000) i = true ∧
        (∀ k, k < i → ratingMatchAt (text.data.take 3000) k = false) ∧
        (scrape_gbp_basics (GbpFetch.page text)).rating =
          ⟨((text.data.take 3000).drop i).take 3⟩)) ∧
    (∀ text,
      ((scrape_gbp_basics (GbpFetch.page text)).review_count = "?" ∧
        ∀ i, reviewMatchAt (text.data.take 3000) i = false) ∨
      (∃ i, reviewMatchAt (text.data.take 3000) i = true ∧
        (∀ k, k < i → reviewMatchAt (text.data.take 3000) k = false) ∧
        (scrape_gbp_basics (GbpFetch.page text)).review_count =
          ⟨((text.data.take 3000).drop (i + 1)).takeWhile
            Char.isDigit⟩)) := by
  refine ⟨fun e => rfl, ?_, ?_⟩
  · intro text
    cases hs : searchIdx (ratingMatchAt (text.data.take 3000))
        (text.data.take 3000) with
    | none =>
      left
      constructor
      · simp [scrape_gbp_basics, ratingSearch, hs]
      · intro i
        by_cases hi : i < (text.data.take 3000).length
        · exact scanFrom_eq_none hs i (Nat.zero_le i) (by omega)
        · exact ratingMatchAt_of_le_length (by omega)
    | some j =>
      right
      obtain ⟨h1, _, h3⟩ := scanFrom_eq_some hs
      exact ⟨j, h1, fun k hk => h3 k (Nat.zero_le k) hk,
        by simp [scrape_gbp_basics, ratingSearch, hs]⟩
  · intro text
    cases hs : searchIdx (reviewMatchAt (text.data.take 3000))
        (text.data.take 3000) with
    | none =>
      left
      constructor
      · simp [scrape_gbp_basics, reviewSearch, hs]
      · intro i
        by_cases hi : i < (text.data.take 3000).length
        · exact scanFrom_eq_none hs i (Nat.zero_le i) (by omega)
        · exact reviewMatchAt_of_le_length (by omega)
    | some j =>
      right
      obtain ⟨h1, _, h3⟩ := scanFrom_eq_some hs
      exact ⟨j, h1, fun k hk => h3 k (Nat.zero_le k) hk,
        by simp [scrape_gbp_basics, reviewSearch, hs]⟩

/-- Witness for C8 at a concrete page text: the extracted rating is the
leftmost decimal match "4.9" and the review count "12". -/
theorem scrape_gbp_first_match_witness :
    scrape_gbp_basics
      (GbpFetch.page "Joes Garage 4.9 (12 Google reviews) Open now") =
      ⟨"4.9", "12", true⟩ ∧
    scrape_gbp_basics (GbpFetch.raised "blocked") = ⟨"?", "?", false⟩ :=
  ⟨by decide, scrape_gbp_first_match.1 "blocked"⟩

end Audit
